import Mathlib

/-!
Shallow embedding of the Jobly data-access layer:
`src/helpers/sql.js` (sqlForPartialUpdate), `src/models/company.js` (Company)
and `src/models/job.js` (Job).

The persistent relational store (the `db` collaborator) is modelled as an
explicit `Store` value holding the company and job rows; `db.query` on the
statements the models build is modelled by evaluating the meaning of those
statements over the `Store` (row predicates, insertion, deletion, ordering).
SQL `NULL` columns are `Option` fields; a comparison against `NULL` is false,
as in SQL.  JavaScript objects used as ordered field maps are embedded as
association lists `List (String × _)` in iteration order; JavaScript
truthiness of the values the models test (`if (name)`, `if (minEmployees)`,
`jsToSql[colName] || colName`) is made explicit in `jsTruthyStr`,
`jsTruthyInt`, `jsTruthyOptBool` and `jsLookupOr`.

Error signalling follows the code, which has two error classes for the
operations embedded here: `BadRequestError` (the spec calls it
ValidationError, and also uses it for the duplicate-company failure the spec
calls DuplicateKeyError) and `NotFoundError`.
-/

/-- A SQL value as passed through a positional parameter list: a string,
an integer, or NULL (JavaScript `null`/`undefined`). -/
inductive Value where
  | str (s : String)
  | int (n : Int)
  | null
deriving DecidableEq

/-- The error classes of `expressError.js` used by the embedded modules. -/
inductive AppError where
  | BadRequestError (msg : String)
  | NotFoundError (msg : String)
deriving DecidableEq

deriving instance DecidableEq for Except

/-- JavaScript truthiness of an optional string filter value:
`undefined` and the empty string are falsy. -/
def jsTruthyStr : Option String → Bool
  | none => false
  | some s => s ≠ ""

/-- JavaScript truthiness of an optional integer filter value:
`undefined` and `0` are falsy. -/
def jsTruthyInt : Option Int → Bool
  | none => false
  | some n => n ≠ 0

/-- JavaScript truthiness of an optional boolean filter value:
only `true` is truthy. -/
def jsTruthyOptBool : Option Bool → Bool
  | some true => true
  | _ => false

/-- JavaScript `a > b` on two optional numbers: a comparison with
`undefined` on either side is false. -/
def jsGt : Option Int → Option Int → Bool
  | some a, some b => b < a
  | _, _ => false

/-- A `jsToSql` translation-table entry's value: JavaScript object values
may themselves be `undefined` (`none`), as exercised by the helper's tests. -/
abbrev Translation := List (String × Option String)

/-- Raw JavaScript property lookup `jsToSql[colName]`: `none` when the key
is absent, `some none` when the key maps to `undefined`. -/
def jsLookup (jsToSql : Translation) (k : String) : Option (Option String) :=
  (jsToSql.find? (fun p => p.fst == k)).map Prod.snd

/-- The column-name resolution `jsToSql[colName] || colName` of
`src/helpers/sql.js` line 20: an absent, `undefined` or empty translation
target falls back to the verbatim key. -/
def jsLookupOr (jsToSql : Translation) (k : String) : String :=
  match jsLookup jsToSql k with
  | some (some t) => if t == "" then k else t
  | some none => k
  | none => k

/-- The assignment fragments `'"col"=$i'` built by `src/helpers/sql.js`
lines 19-21: one per key of `dataToUpdate`, indexed from 1 in iteration
order. -/
def setFragments (dataToUpdate : List (String × Value)) (jsToSql : Translation) :
    List String :=
  dataToUpdate.enum.map
    (fun p => "\"" ++ jsLookupOr jsToSql p.snd.fst ++ "\"=$" ++ toString (p.fst + 1))

/-- `sqlForPartialUpdate` of `src/helpers/sql.js`: throws
`BadRequestError("No data")` on an empty field map, otherwise returns the
fragments joined by `", "` as `setCols` together with the `values` of the
field map in the same order. -/
def sqlForPartialUpdate (dataToUpdate : List (String × Value)) (jsToSql : Translation) :
    Except AppError (String × List Value) :=
  if dataToUpdate.length == 0 then
    Except.error (AppError.BadRequestError "No data")
  else
    Except.ok (String.intercalate ", " (setFragments dataToUpdate jsToSql),
               dataToUpdate.map Prod.snd)

/-- A row of the `companies` table, in the canonical external naming the
models project (`num_employees AS "numEmployees"`, `logo_url AS "logoUrl"`);
nullable columns are `Option`. -/
structure Company where
  handle : String
  name : String
  description : String
  numEmployees : Option Int
  logoUrl : Option String
deriving DecidableEq

/-- A row of the `jobs` table in canonical external naming. `equity` is a
decimal string (`NUMERIC` is returned as a string by the driver). -/
structure Job where
  id : Int
  title : String
  salary : Option Int
  equity : Option String
  companyHandle : String
deriving DecidableEq

/-- The persistent relational store consumed through the `db` collaborator. -/
structure Store where
  companies : List Company
  jobs : List Job
deriving DecidableEq

/-- SQL `LIKE` pattern matching on character lists: `%` matches any
sequence (some suffix of the text matches the rest of the pattern), `_` any
single character, anything else itself. -/
def likeMatch : List Char → List Char → Bool
  | [], text => text.isEmpty
  | '%' :: ps, text => text.tails.any (fun t => likeMatch ps t)
  | '_' :: _, [] => false
  | '_' :: ps, _ :: ts => likeMatch ps ts
  | _ :: _, [] => false
  | p :: ps, c :: ts => p == c && likeMatch ps ts

/-- ASCII lowercasing of one character, for the case-insensitivity of
`ILIKE`. -/
def lowerChar (c : Char) : Char :=
  match c with
  | 'A' => 'a' | 'B' => 'b' | 'C' => 'c' | 'D' => 'd' | 'E' => 'e' | 'F' => 'f'
  | 'G' => 'g' | 'H' => 'h' | 'I' => 'i' | 'J' => 'j' | 'K' => 'k' | 'L' => 'l'
  | 'M' => 'm' | 'N' => 'n' | 'O' => 'o' | 'P' => 'p' | 'Q' => 'q' | 'R' => 'r'
  | 'S' => 's' | 'T' => 't' | 'U' => 'u' | 'V' => 'v' | 'W' => 'w' | 'X' => 'x'
  | 'Y' => 'y' | 'Z' => 'z' | other => other

/-- The meaning of `col ILIKE $n` where the parameter is `'%' + pat + '%'`
(the pattern the models interpolate for the `name`/`title` filters):
case-insensitive LIKE. -/
def ilikeContains (pat text : String) : Bool :=
  likeMatch (("%" ++ pat ++ "%").toList.map lowerChar) (text.toList.map lowerChar)

/-- Lexicographic order on strings by character code, standing in for the
storage collation used by `ORDER BY`. -/
def charListLe : List Char → List Char → Bool
  | [], _ => true
  | _ :: _, [] => false
  | a :: as, b :: bs =>
    if a.toNat < b.toNat then true
    else if b.toNat < a.toNat then false
    else charListLe as bs

/-- String comparison for `ORDER BY name` / `ORDER BY title`. -/
def strLe (s t : String) : Bool := charListLe s.toList t.toList

/-- Insert a row into a list sorted by `key`, keeping it sorted. -/
def sortedInsert (key : α → String) (a : α) : List α → List α
  | [] => [a]
  | b :: l => if strLe (key a) (key b) then a :: b :: l else b :: sortedInsert key a l

/-- The meaning of `ORDER BY` on a result set: sort by the given key,
ascending. -/
def orderBy (key : α → String) : List α → List α
  | [] => []
  | a :: l => sortedInsert key a (orderBy key l)

/-- The optional filter set accepted by `Company.findAll`. -/
structure CompanyFilters where
  name : Option String := none
  minEmployees : Option Int := none
  maxEmployees : Option Int := none
deriving DecidableEq

/-- The meaning of `num_employees >= $n` over a nullable column: false on
`NULL`. -/
def geNullable (x : Option Int) (v : Int) : Bool :=
  match x with
  | some n => decide (v ≤ n)
  | none => false

/-- The meaning of `num_employees <= $n` over a nullable column: false on
`NULL`. -/
def leNullable (x : Option Int) (v : Int) : Bool :=
  match x with
  | some n => decide (n ≤ v)
  | none => false

/-- The conjunction of the WHERE predicates `Company.findAll` builds in
`src/models/company.js` lines 79-103: each clause is contributed only when
the corresponding filter value is truthy. -/
def companyRowPred (f : CompanyFilters) (c : Company) : Bool :=
  (if jsTruthyStr f.name then ilikeContains (f.name.getD "") c.name else true) &&
  (if jsTruthyInt f.minEmployees then geNullable c.numEmployees (f.minEmployees.getD 0) else true) &&
  (if jsTruthyInt f.maxEmployees then leNullable c.numEmployees (f.maxEmployees.getD 0) else true)

/-- `Company.findAll` of `src/models/company.js`: throws `BadRequestError`
when `minEmployees > maxEmployees` (JavaScript comparison, so only when
both are numbers), otherwise executes the built query: the rows satisfying
the conjunction of the truthy filters, `ORDER BY name`. -/
def Company.findAll (filters : CompanyFilters) (st : Store) :
    Except AppError (List Company) :=
  if jsGt filters.minEmployees filters.maxEmployees then
    Except.error (AppError.BadRequestError "minEmployees cannot be greater than maxEmployees")
  else
    Except.ok (orderBy Company.name (st.companies.filter (companyRowPred filters)))

/-- `Company.create` of `src/models/company.js`: a duplicate-handle check
first (`BadRequestError` before any insert), then the insert, returning the
inserted row. -/
def Company.create (data : Company) (st : Store) :
    Except AppError (Company × Store) :=
  match st.companies.find? (fun c => c.handle == data.handle) with
  | some _ => Except.error (AppError.BadRequestError ("Duplicate company: " ++ data.handle))
  | none => Except.ok (data, { st with companies := st.companies ++ [data] })

/-- `Company.get` of `src/models/company.js` lines 115-131: a single
SELECT on `companies` by handle; `NotFoundError` when no row matches,
otherwise the bare company row.  The source issues no query on `jobs` and
attaches no `jobs` field, although its own doc comment promises one. -/
def Company.get (handle : String) (st : Store) : Except AppError Company :=
  match st.companies.find? (fun c => c.handle == handle) with
  | none => Except.error (AppError.NotFoundError ("No company: " ++ handle))
  | some c => Except.ok c

/-- The `jsToSql` translation table `Company.update` passes to
`sqlForPartialUpdate`. -/
def companyJsToSql : Translation :=
  [("numEmployees", some "num_employees"), ("logoUrl", some "logo_url")]

/-- The meaning of one `"col"=$i` assignment of the generated UPDATE on a
`companies` row, by resolved column name.  An assignment whose column or
value shape matches no column of the table is outside the model (the
storage engine would reject the whole statement). -/
def applyCompanyCol (c : Company) (col : String) (v : Value) : Company :=
  match col, v with
  | "handle", Value.str s => { c with handle := s }
  | "name", Value.str s => { c with name := s }
  | "description", Value.str s => { c with description := s }
  | "num_employees", Value.int n => { c with numEmployees := some n }
  | "num_employees", Value.null => { c with numEmployees := none }
  | "logo_url", Value.str s => { c with logoUrl := some s }
  | "logo_url", Value.null => { c with logoUrl := none }
  | _, _ => c

/-- The meaning of the whole SET clause `Company.update` builds: each field
applied in order, columns resolved exactly as the fragments are
(`jsLookupOr companyJsToSql`). -/
def applyCompanyUpdate (c : Company) (data : List (String × Value)) : Company :=
  data.foldl (fun acc kv => applyCompanyCol acc (jsLookupOr companyJsToSql kv.fst) kv.snd) c

/-- `Company.update` of `src/models/company.js` lines 145-170: delegates to
`sqlForPartialUpdate` (so an empty field map fails with `BadRequestError`
before the store is consulted), then executes
`UPDATE companies SET ... WHERE handle = $n RETURNING ...`;
`NotFoundError` when no row matched. -/
def Company.update (handle : String) (data : List (String × Value)) (st : Store) :
    Except AppError (Company × Store) :=
  match sqlForPartialUpdate data companyJsToSql with
  | Except.error e => Except.error e
  | Except.ok _ =>
    match st.companies.find? (fun c => c.handle == handle) with
    | none => Except.error (AppError.NotFoundError ("No company: " ++ handle))
    | some c =>
      Except.ok (applyCompanyUpdate c data,
        { st with companies :=
            st.companies.map (fun x => if x.handle == handle then applyCompanyUpdate x data else x) })

/-- `Company.remove` of `src/models/company.js` lines 175-185:
`DELETE FROM companies WHERE handle = $1 RETURNING handle`;
`NotFoundError` when no row was deleted. -/
def Company.remove (handle : String) (st : Store) : Except AppError Store :=
  match st.companies.find? (fun c => c.handle == handle) with
  | none => Except.error (AppError.NotFoundError ("No company: " ++ handle))
  | some _ => Except.ok { st with companies := st.companies.filter (fun c => !(c.handle == handle)) }

/-- The optional filter set accepted by `Job.findAll`.  `hasEquity` arrives
as an arbitrary value whose truthiness alone is tested; it is embedded as
the optional boolean it is documented to be. -/
structure JobFilters where
  title : Option String := none
  minSalary : Option Int := none
  hasEquity : Option Bool := none
deriving DecidableEq

/-- The result shape of `Job.get`: the raw `companyHandle` is deleted and
replaced by the nested company row of the second lookup (or nothing when
that lookup returns no row). -/
structure JobWithCompany where
  id : Int
  title : String
  salary : Option Int
  equity : Option String
  company : Option Company
deriving DecidableEq

/-- `Job.get` of `src/models/job.js` lines 87-105: SELECT the job by id
(`NotFoundError` when absent), then a second SELECT of its company by the
job's `companyHandle`, attached as `company`. -/
def Job.get (id : Int) (st : Store) : Except AppError JobWithCompany :=
  match st.jobs.find? (fun j => j.id == id) with
  | none => Except.error (AppError.NotFoundError ("No job: " ++ toString id))
  | some j =>
    Except.ok { id := j.id, title := j.title, salary := j.salary, equity := j.equity,
                company := st.companies.find? (fun c => c.handle == j.companyHandle) }

/-- The meaning of one `"col"=$i` assignment of the generated UPDATE on a
`jobs` row (see `applyCompanyCol`). -/
def applyJobCol (j : Job) (col : String) (v : Value) : Job :=
  match col, v with
  | "title", Value.str s => { j with title := s }
  | "salary", Value.int n => { j with salary := some n }
  | "salary", Value.null => { j with salary := none }
  | "equity", Value.str s => { j with equity := some s }
  | "equity", Value.null => { j with equity := none }
  | "company_handle", Value.str s => { j with companyHandle := s }
  | _, _ => j

/-- The meaning of the SET clause `Job.update` builds; its `jsToSql` table
is empty, so every column is the verbatim key. -/
def applyJobUpdate (j : Job) (data : List (String × Value)) : Job :=
  data.foldl (fun acc kv => applyJobCol acc (jsLookupOr [] kv.fst) kv.snd) j

/-- `Job.update` of `src/models/job.js` lines 120-140: delegates to
`sqlForPartialUpdate` with an empty translation table, then executes
`UPDATE jobs SET ... WHERE id = $n RETURNING ...`; `NotFoundError` when no
row matched. -/
def Job.update (id : Int) (data : List (String × Value)) (st : Store) :
    Except AppError (Job × Store) :=
  match sqlForPartialUpdate data [] with
  | Except.error e => Except.error e
  | Except.ok _ =>
    match st.jobs.find? (fun j => j.id == id) with
    | none => Except.error (AppError.NotFoundError ("No job: " ++ toString id))
    | some j =>
      Except.ok (applyJobUpdate j data,
        { st with jobs := st.jobs.map (fun x => if x.id == id then applyJobUpdate x data else x) })

/-- `Job.remove` of `src/models/job.js`:
`DELETE FROM jobs WHERE id = $1 RETURNING id`; `NotFoundError` when no row
was deleted. -/
def Job.remove (id : Int) (st : Store) : Except AppError Store :=
  match st.jobs.find? (fun j => j.id == id) with
  | none => Except.error (AppError.NotFoundError ("No job: " ++ toString id))
  | some _ => Except.ok { st with jobs := st.jobs.filter (fun j => !(j.id == id)) }

/-- A positional query parameter as pushed onto `qVal`. -/
inductive SqlParam where
  | str (s : String)
  | int (n : Int)
deriving DecidableEq

/-- The WHERE clauses and positional parameters `Company.findAll`
accumulates (`whereClauses`, `qVal`), in source order: `name`, then
`minEmployees`, then `maxEmployees`; placeholders numbered by the current
length of `qVal`. -/
def companyQueryParts (f : CompanyFilters) : List String × List SqlParam :=
  let w : List String := []
  let q : List SqlParam := []
  let (w, q) :=
    if jsTruthyStr f.name then
      (w ++ ["name ILIKE $" ++ toString (q.length + 1)],
       q ++ [SqlParam.str ("%" ++ f.name.getD "" ++ "%")])
    else (w, q)
  let (w, q) :=
    if jsTruthyInt f.minEmployees then
      (w ++ ["num_employees >= $" ++ toString (q.length + 1)],
       q ++ [SqlParam.int (f.minEmployees.getD 0)])
    else (w, q)
  let (w, q) :=
    if jsTruthyInt f.maxEmployees then
      (w ++ ["num_employees <= $" ++ toString (q.length + 1)],
       q ++ [SqlParam.int (f.maxEmployees.getD 0)])
    else (w, q)
  (w, q)

/-- The full query text `Company.findAll` sends to `db.query`
(whitespace normalised). -/
def companyQueryText (f : CompanyFilters) : String :=
  let base := "SELECT handle, name, description, num_employees AS \"numEmployees\", logo_url AS \"logoUrl\" FROM companies"
  let w := (companyQueryParts f).fst
  (base ++ (if w.length > 0 then " WHERE " ++ String.intercalate " AND " w else ""))
    ++ " ORDER BY name"

/-- The WHERE clauses and positional parameters `Job.findAll` accumulates,
in source order: `title`, then `minSalary`, then `hasEquity` (which adds a
clause but no parameter). -/
def jobQueryParts (f : JobFilters) : List String × List SqlParam :=
  let w : List String := []
  let q : List SqlParam := []
  let (w, q) :=
    if jsTruthyStr f.title then
      (w ++ ["title ILIKE $" ++ toString (q.length + 1)],
       q ++ [SqlParam.str ("%" ++ f.title.getD "" ++ "%")])
    else (w, q)
  let (w, q) :=
    if jsTruthyInt f.minSalary then
      (w ++ ["salary >= $" ++ toString (q.length + 1)],
       q ++ [SqlParam.int (f.minSalary.getD 0)])
    else (w, q)
  let w := if jsTruthyOptBool f.hasEquity then w ++ ["equity > 0"] else w
  (w, q)

/-- The full query text `Job.findAll` sends to `db.query`
(whitespace normalised). -/
def jobQueryText (f : JobFilters) : String :=
  let base := "SELECT j.id, j.title, j.salary, j.equity, j.company_handle AS \"companyHandle\", c.name AS \"companyName\" FROM jobs j LEFT JOIN companies AS c ON c.handle = j.company_handle"
  let w := (jobQueryParts f).fst
  (base ++ (if w.length > 0 then " WHERE " ++ String.intercalate " AND " w else ""))
    ++ " ORDER BY title"

/-- Modelled from the spec: the fields the Job PATCH route's JSON schema
accepts ("Data can include: {title, equity, salary}"); `routes/jobs.js` and
its schema are not under `src/`, only `routes/jobs.test.js` is. -/
def jobUpdatableFields : List String := ["title", "salary", "equity"]

/-- Modelled from the spec: the fields the Company PATCH route's JSON
schema accepts ("Data can include: {name, description, numEmployees,
logoUrl}"); `routes/companies.js` and its schema are not under `src/`. -/
def companyUpdatableFields : List String := ["name", "description", "numEmployees", "logoUrl"]

/-- Modelled from the spec: the upstream (route-level) validation of a Job
partial update.  The spec requires that "companyHandle is immutable
post-creation by contract — attempts to change it must be rejected
upstream", and `routes/jobs.test.js` expects 400 when a disallowed field is
sent; the route validates the body against its schema and fails with
`BadRequestError` (the spec's ValidationError) on any field outside
`jobUpdatableFields`, before calling `Job.update`. -/
def jobRouteUpdate (id : Int) (data : List (String × Value)) (st : Store) :
    Except AppError (Job × Store) :=
  if data.all (fun kv => jobUpdatableFields.contains kv.fst) then
    Job.update id data st
  else
    Except.error (AppError.BadRequestError "instance is not allowed to have the additional property")

/-- Modelled from the spec: the upstream (route-level) validation of a
Company partial update, rejecting any field outside
`companyUpdatableFields` (in particular the primary key `handle`) with
`BadRequestError` before calling `Company.update`. -/
def companyRouteUpdate (handle : String) (data : List (String × Value)) (st : Store) :
    Except AppError (Company × Store) :=
  if data.all (fun kv => companyUpdatableFields.contains kv.fst) then
    Company.update handle data st
  else
    Except.error (AppError.BadRequestError "instance is not allowed to have the additional property")

/-! ## Helper lemmas -/

theorem jsLookupOr_fallback (T : Translation) (k : String)
    (hT : jsLookup T k = none ∨ jsLookup T k = some none ∨ jsLookup T k = some (some "")) :
    jsLookupOr T k = k := by
  unfold jsLookupOr
  rcases hT with h | h | h <;> simp [h]

theorem setFragments_length (F : List (String × Value)) (T : Translation) :
    (setFragments F T).length = F.length := by
  simp [setFragments]

theorem sqlForPartialUpdate_ok (F : List (String × Value)) (T : Translation) (h : F ≠ []) :
    sqlForPartialUpdate F T =
      Except.ok (String.intercalate ", " (setFragments F T), F.map Prod.snd) := by
  unfold sqlForPartialUpdate
  simp [h]

theorem mem_sortedInsert (key : α → String) (a x : α) (l : List α) :
    x ∈ sortedInsert key a l ↔ x = a ∨ x ∈ l := by
  induction l with
  | nil => simp [sortedInsert]
  | cons b t ih =>
    unfold sortedInsert
    cases hc : strLe (key a) (key b)
    · rw [if_neg (by simp [hc])]
      simp only [List.mem_cons, ih]
      tauto
    · rw [if_pos (by simp [hc])]
      simp only [List.mem_cons]

theorem mem_orderBy (key : α → String) (x : α) (l : List α) :
    x ∈ orderBy key l ↔ x ∈ l := by
  induction l with
  | nil => simp [orderBy]
  | cons a t ih => simp [orderBy, mem_sortedInsert, ih]

theorem companyRowPred_eq_true_iff (f : CompanyFilters) (c : Company) :
    companyRowPred f c = true ↔
      (jsTruthyStr f.name = true → ilikeContains (f.name.getD "") c.name = true) ∧
      (jsTruthyInt f.minEmployees = true →
        geNullable c.numEmployees (f.minEmployees.getD 0) = true) ∧
      (jsTruthyInt f.maxEmployees = true →
        leNullable c.numEmployees (f.maxEmployees.getD 0) = true) := by
  unfold companyRowPred
  cases h1 : jsTruthyStr f.name <;> cases h2 : jsTruthyInt f.minEmployees <;>
    cases h3 : jsTruthyInt f.maxEmployees <;> simp [and_assoc]

/-! ## Claims -/

/-- C1: for every non-empty field map `F` and every translation table `T`,
`sqlForPartialUpdate` returns a `setCols` clause that is exactly the
`", "`-join of `|F|` assignment fragments, the `i`-th (0-based) being
`"col"=$(i+1)` with the column resolved through `T` from the `i`-th key of
`F`, and returns the values of `F` in the same order. -/
theorem c1_update_builder_correct (F : List (String × Value)) (T : Translation)
    (h : F ≠ []) :
    ∃ frags : List String,
      sqlForPartialUpdate F T =
        Except.ok (String.intercalate ", " frags, F.map Prod.snd) ∧
      frags.length = F.length ∧
      frags = ((List.range F.length).zip F).map
        (fun p => "\"" ++ jsLookupOr T p.snd.fst ++ "\"=$" ++ toString (p.fst + 1)) := by
  refine ⟨setFragments F T, sqlForPartialUpdate_ok F T h, setFragments_length F T, ?_⟩
  unfold setFragments
  rw [List.enum_eq_zip_range]

/-- C1 witness: the builder on two fields, one translated, yields
`"first_name"=$1, "age"=$2` with the two values in order. -/
theorem c1_witness :
    ([("firstName", Value.str "John"), ("age", Value.int 30)] : List (String × Value)) ≠ [] ∧
    (∃ frags : List String,
      sqlForPartialUpdate [("firstName", Value.str "John"), ("age", Value.int 30)]
          [("firstName", some "first_name")] =
        Except.ok (String.intercalate ", " frags,
          ([("firstName", Value.str "John"), ("age", Value.int 30)] :
            List (String × Value)).map Prod.snd) ∧
      frags.length =
        ([("firstName", Value.str "John"), ("age", Value.int 30)] :
          List (String × Value)).length ∧
      frags = ((List.range ([("firstName", Value.str "John"), ("age", Value.int 30)] :
          List (String × Value)).length).zip
            [("firstName", Value.str "John"), ("age", Value.int 30)]).map
        (fun p => "\"" ++ jsLookupOr [("firstName", some "first_name")] p.snd.fst
          ++ "\"=$" ++ toString (p.fst + 1))) :=
  ⟨by decide,
   c1_update_builder_correct
     [("firstName", Value.str "John"), ("age", Value.int 30)]
     [("firstName", some "first_name")] (by decide)⟩

/-- The store used to exhibit C2: one company `c1` that has one job. -/
def c2Company : Company :=
  { handle := "c1", name := "C1", description := "Desc1",
    numEmployees := some 1, logoUrl := some "http://c1.img" }

/-- The job of company `c1` in the C2 store. -/
def c2Job : Job :=
  { id := 1, title := "J1", salary := some 1, equity := some "0.1", companyHandle := "c1" }

/-- The C2 store. -/
def c2Store : Store := { companies := [c2Company], jobs := [c2Job] }

/-- C2: evaluating the code at the failing input.  On a store in which
company `c1` exists and has a job, `Company.get "c1"` succeeds but returns
only the bare company row: the source issues no query on the `jobs` table
and attaches no `jobs` field (its result type here is `Company`, which has
no jobs component), although the function's own doc comment — and the spec
— promise the associated jobs embedded as a nested `jobs` field. -/
theorem c2_company_get_returns_bare_row :
    Company.get "c1" c2Store = Except.ok c2Company := by
  rfl

/-- C3: a partial update with an empty field set fails with
`BadRequestError("No data")` (the spec's ValidationError) at every level:
the builder for every translation table, and `Company.update` /
`Job.update` for every key — and for every store state, which the
operations never consult (the failure propagates from the builder before
any query is issued). -/
theorem c3_empty_update_rejected_everywhere :
    ∀ (T : Translation) (handle : String) (id : Int) (st : Store),
      sqlForPartialUpdate [] T = Except.error (AppError.BadRequestError "No data") ∧
      Company.update handle [] st = Except.error (AppError.BadRequestError "No data") ∧
      Job.update id [] st = Except.error (AppError.BadRequestError "No data") := by
  intro T handle id st
  exact ⟨rfl, rfl, rfl⟩

/-- C4: for every field map `F` and translation table `T`, and every
position `i` of `F` whose key has no translation-table entry, an
`undefined` one, or an empty-string one, the builder succeeds and the
`i`-th generated fragment quotes the key itself verbatim as the column
name, with placeholder `$(i+1)`. -/
theorem c4_translation_fallback (F : List (String × Value)) (T : Translation)
    (i : Nat) (hi : i < F.length)
    (hT : jsLookup T (F.get ⟨i, hi⟩).fst = none ∨
          jsLookup T (F.get ⟨i, hi⟩).fst = some none ∨
          jsLookup T (F.get ⟨i, hi⟩).fst = some (some "")) :
    ∃ frags : List String,
      sqlForPartialUpdate F T =
        Except.ok (String.intercalate ", " frags, F.map Prod.snd) ∧
      ∃ hlen : i < frags.length,
        frags.get ⟨i, hlen⟩ = "\"" ++ (F.get ⟨i, hi⟩).fst ++ "\"=$" ++ toString (i + 1) := by
  have hne : F ≠ [] := by
    intro he
    rw [he] at hi
    simp at hi
  have hlen : i < (setFragments F T).length := by
    rw [setFragments_length]
    exact hi
  refine ⟨setFragments F T, sqlForPartialUpdate_ok F T hne, hlen, ?_⟩
  simp only [List.get_eq_getElem] at hT ⊢
  simp only [setFragments, List.getElem_map, List.getElem_enum]
  rw [jsLookupOr_fallback T _ hT]

/-- C4 witness: a key translated to the empty string is used verbatim. -/
theorem c4_witness :
    (0 : Nat) < ([("firstName", Value.str "x")] : List (String × Value)).length ∧
    (jsLookup [("firstName", some "")] "firstName" = none ∨
     jsLookup [("firstName", some "")] "firstName" = some none ∨
     jsLookup [("firstName", some "")] "firstName" = some (some "")) ∧
    (∃ frags : List String,
      sqlForPartialUpdate [("firstName", Value.str "x")] [("firstName", some "")] =
        Except.ok (String.intercalate ", " frags,
          ([("firstName", Value.str "x")] : List (String × Value)).map Prod.snd) ∧
      ∃ hlen : 0 < frags.length,
        frags.get ⟨0, hlen⟩ = "\"" ++ "firstName" ++ "\"=$" ++ toString (0 + 1)) := by
  refine ⟨by decide, by decide, ?_⟩
  have h := c4_translation_fallback [("firstName", Value.str "x")] [("firstName", some "")]
    0 (by decide) (by decide)
  exact h

/-- C5: `Company.findAll` with both bounds supplied and
`minEmployees > maxEmployees` fails with `BadRequestError` (the spec's
ValidationError) for every store state — the store is never consulted, the
check precedes the query build and execution. -/
theorem c5_min_greater_than_max_rejected (a b : Int) (h : b < a) (st : Store) :
    Company.findAll { minEmployees := some a, maxEmployees := some b } st =
      Except.error
        (AppError.BadRequestError "minEmployees cannot be greater than maxEmployees") := by
  unfold Company.findAll
  simp [jsGt, h]

/-- C5 witness: `minEmployees = 2 > 1 = maxEmployees` is rejected on the
empty store. -/
theorem c5_witness :
    (1 : Int) < 2 ∧
    Company.findAll { minEmployees := some 2, maxEmployees := some 1 }
        { companies := [], jobs := [] } =
      Except.error
        (AppError.BadRequestError "minEmployees cannot be greater than maxEmployees") :=
  ⟨by decide, c5_min_greater_than_max_rejected 2 1 (by decide) { companies := [], jobs := [] }⟩

/-- A company with five employees, used to exhibit C6. -/
def c6Company : Company :=
  { handle := "c1", name := "C1", description := "d",
    numEmployees := some 5, logoUrl := none }

/-- C6 counterexample: with a supplied `maxEmployees` of `0`, the claim
requires exactly the companies with `numEmployees <= 0`; the code instead
treats the falsy `0` as an absent filter and returns a company with five
employees, which fails the `numEmployees <= 0` predicate. -/
theorem c6_counterexample :
    Company.findAll { maxEmployees := some 0 } { companies := [c6Company], jobs := [] } =
      Except.ok [c6Company] ∧
    leNullable c6Company.numEmployees 0 = false :=
  ⟨rfl, rfl⟩

/-- C6 amended: whenever the range check passes, `Company.findAll` returns
exactly the companies satisfying the conjunction of the supplied *truthy*
filters — name a case-insensitive substring match, `numEmployees >=
minEmployees`, `numEmployees <= maxEmployees` (both false on a NULL
`numEmployees`) — while a supplied `0` for `minEmployees`/`maxEmployees`
and a supplied empty string for `name` are falsy and contribute no
predicate. -/
theorem c6_amended_findAll_returns_matching (f : CompanyFilters) (st : Store) (c : Company)
    (h : jsGt f.minEmployees f.maxEmployees = false) :
    ∃ rows : List Company,
      Company.findAll f st = Except.ok rows ∧
      (c ∈ rows ↔ c ∈ st.companies ∧
        (jsTruthyStr f.name = true → ilikeContains (f.name.getD "") c.name = true) ∧
        (jsTruthyInt f.minEmployees = true →
          geNullable c.numEmployees (f.minEmployees.getD 0) = true) ∧
        (jsTruthyInt f.maxEmployees = true →
          leNullable c.numEmployees (f.maxEmployees.getD 0) = true)) := by
  refine ⟨orderBy Company.name (st.companies.filter (companyRowPred f)), ?_, ?_⟩
  · unfold Company.findAll
    simp [h]
  · rw [mem_orderBy, List.mem_filter, companyRowPred_eq_true_iff]

/-- C6 witness: a truthy `name` filter `"c"` on a one-company store keeps
the company, whose name `"C1"` contains `"c"` case-insensitively. -/
theorem c6_witness :
    jsGt (CompanyFilters.mk (some "c") none none).minEmployees
        (CompanyFilters.mk (some "c") none none).maxEmployees = false ∧
    (∃ rows : List Company,
      Company.findAll { name := some "c" } { companies := [c6Company], jobs := [] } =
        Except.ok rows ∧
      (c6Company ∈ rows ↔
        c6Company ∈ (Store.mk [c6Company] []).companies ∧
        (jsTruthyStr (CompanyFilters.mk (some "c") none none).name = true →
          ilikeContains ((CompanyFilters.mk (some "c") none none).name.getD "")
            c6Company.name = true) ∧
        (jsTruthyInt (CompanyFilters.mk (some "c") none none).minEmployees = true →
          geNullable c6Company.numEmployees
            ((CompanyFilters.mk (some "c") none none).minEmployees.getD 0) = true) ∧
        (jsTruthyInt (CompanyFilters.mk (some "c") none none).maxEmployees = true →
          leNullable c6Company.numEmployees
            ((CompanyFilters.mk (some "c") none none).maxEmployees.getD 0) = true))) :=
  ⟨by decide,
   c6_amended_findAll_returns_matching { name := some "c" }
     { companies := [c6Company], jobs := [] } c6Company (by decide)⟩

/-- C7: a Job partial update whose field map contains `companyHandle`, and
a Company partial update whose field map contains `handle`, are rejected
with `BadRequestError` (the spec's ValidationError) by the upstream
route-level schema validation, for every key and store state, without
applying any change.  The guard itself is modelled from the spec (the
route modules are not under `src/`); the repository models are called only
after it passes. -/
theorem c7_key_fields_rejected (id : Int) (handle : String)
    (dataJ dataC : List (String × Value)) (st : Store) (v w : Value)
    (hJ : ("companyHandle", v) ∈ dataJ) (hC : ("handle", w) ∈ dataC) :
    jobRouteUpdate id dataJ st =
      Except.error
        (AppError.BadRequestError "instance is not allowed to have the additional property") ∧
    companyRouteUpdate handle dataC st =
      Except.error
        (AppError.BadRequestError "instance is not allowed to have the additional property") := by
  constructor
  · unfold jobRouteUpdate
    rw [if_neg]
    intro hall
    rw [List.all_eq_true] at hall
    have := hall _ hJ
    simp [jobUpdatableFields] at this
  · unfold companyRouteUpdate
    rw [if_neg]
    intro hall
    rw [List.all_eq_true] at hall
    have := hall _ hC
    simp [companyUpdatableFields] at this

/-- C7 witness: updating a job's `companyHandle` and a company's `handle`
are both rejected. -/
theorem c7_witness :
    (("companyHandle", Value.str "c2") ∈
      ([("companyHandle", Value.str "c2")] : List (String × Value))) ∧
    (("handle", Value.str "new") ∈
      ([("title", Value.str "t"), ("handle", Value.str "new")] : List (String × Value))) ∧
    jobRouteUpdate 1 [("companyHandle", Value.str "c2")] { companies := [], jobs := [] } =
      Except.error
        (AppError.BadRequestError "instance is not allowed to have the additional property") ∧
    companyRouteUpdate "c1" [("title", Value.str "t"), ("handle", Value.str "new")]
        { companies := [], jobs := [] } =
      Except.error
        (AppError.BadRequestError "instance is not allowed to have the additional property") := by
  refine ⟨by decide, by decide, ?_⟩
  exact c7_key_fields_rejected 1 "c1" [("companyHandle", Value.str "c2")]
    [("title", Value.str "t"), ("handle", Value.str "new")]
    { companies := [], jobs := [] } (Value.str "c2") (Value.str "new")
    (by decide) (by decide)

/-- C8: on a store with no company under `handle` and no job under `id`,
`get`, `update` (with a non-empty field map) and `remove` each fail with
`NotFoundError`, on both repositories. -/
theorem c8_not_found_consistency (handle : String) (id : Int) (st : Store)
    (dataC dataJ : List (String × Value))
    (hC : ∀ c ∈ st.companies, c.handle ≠ handle)
    (hJ : ∀ j ∈ st.jobs, j.id ≠ id)
    (hdC : dataC ≠ []) (hdJ : dataJ ≠ []) :
    Company.get handle st =
      Except.error (AppError.NotFoundError ("No company: " ++ handle)) ∧
    Company.update handle dataC st =
      Except.error (AppError.NotFoundError ("No company: " ++ handle)) ∧
    Company.remove handle st =
      Except.error (AppError.NotFoundError ("No company: " ++ handle)) ∧
    Job.get id st =
      Except.error (AppError.NotFoundError ("No job: " ++ toString id)) ∧
    Job.update id dataJ st =
      Except.error (AppError.NotFoundError ("No job: " ++ toString id)) ∧
    Job.remove id st =
      Except.error (AppError.NotFoundError ("No job: " ++ toString id)) := by
  have hfC : st.companies.find? (fun c => c.handle == handle) = none := by
    rw [List.find?_eq_none]
    intro c hc
    simpa using hC c hc
  have hfJ : st.jobs.find? (fun j => j.id == id) = none := by
    rw [List.find?_eq_none]
    intro j hj
    simpa using hJ j hj
  refine ⟨?_, ?_, ?_, ?_, ?_, ?_⟩
  · unfold Company.get
    rw [hfC]
  · unfold Company.update
    rw [sqlForPartialUpdate_ok dataC companyJsToSql hdC, hfC]
  · unfold Company.remove
    rw [hfC]
  · unfold Job.get
    rw [hfJ]
  · unfold Job.update
    rw [sqlForPartialUpdate_ok dataJ [] hdJ, hfJ]
  · unfold Job.remove
    rw [hfJ]

/-- C8 witness: all six operations fail with `NotFoundError` on the empty
store. -/
theorem c8_witness :
    (∀ c ∈ (Store.mk [] []).companies, c.handle ≠ "nope") ∧
    (∀ j ∈ (Store.mk [] []).jobs, j.id ≠ (0 : Int)) ∧
    ([("name", Value.str "x")] : List (String × Value)) ≠ [] ∧
    ([("title", Value.str "x")] : List (String × Value)) ≠ [] ∧
    Company.get "nope" (Store.mk [] []) =
      Except.error (AppError.NotFoundError ("No company: " ++ "nope")) ∧
    Company.update "nope" [("name", Value.str "x")] (Store.mk [] []) =
      Except.error (AppError.NotFoundError ("No company: " ++ "nope")) ∧
    Company.remove "nope" (Store.mk [] []) =
      Except.error (AppError.NotFoundError ("No company: " ++ "nope")) ∧
    Job.get 0 (Store.mk [] []) =
      Except.error (AppError.NotFoundError ("No job: " ++ toString (0 : Int))) ∧
    Job.update 0 [("title", Value.str "x")] (Store.mk [] []) =
      Except.error (AppError.NotFoundError ("No job: " ++ toString (0 : Int))) ∧
    Job.remove 0 (Store.mk [] []) =
      Except.error (AppError.NotFoundError ("No job: " ++ toString (0 : Int))) := by
  have h := c8_not_found_consistency "nope" 0 (Store.mk [] [])
    [("name", Value.str "x")] [("title", Value.str "x")]
    (by intro c hc; simp at hc) (by intro j hj; simp at hj)
    (by decide) (by decide)
  exact ⟨by intro c hc; simp at hc, by intro j hj; simp at hj, by decide, by decide,
    h.1, h.2.1, h.2.2.1, h.2.2.2.1, h.2.2.2.2.1, h.2.2.2.2.2⟩

/-- C9: creating a company whose handle already exists in the store fails
with `BadRequestError("Duplicate company: ...")` (the spec's
DuplicateKeyError), whatever the other supplied fields are; the error
result carries no modified store — the duplicate check precedes the
insert, which is never reached. -/
theorem c9_duplicate_create_rejected (st : Store) (data c0 : Company)
    (hc : c0 ∈ st.companies) (hh : c0.handle = data.handle) :
    Company.create data st =
      Except.error (AppError.BadRequestError ("Duplicate company: " ++ data.handle)) := by
  unfold Company.create
  cases hf : st.companies.find? (fun c => c.handle == data.handle) with
  | none =>
    rw [List.find?_eq_none] at hf
    have := hf c0 hc
    simp [hh] at this
  | some c => rfl

/-- C9 witness: re-creating handle `c1` with different attributes is
rejected with the duplicate message. -/
theorem c9_witness :
    c2Company ∈ (Store.mk [c2Company] []).companies ∧
    c2Company.handle = (Company.mk "c1" "Other" "other" none none).handle ∧
    Company.create (Company.mk "c1" "Other" "other" none none) (Store.mk [c2Company] []) =
      Except.error
        (AppError.BadRequestError
          ("Duplicate company: " ++ (Company.mk "c1" "Other" "other" none none).handle)) :=
  ⟨by decide, by decide,
   c9_duplicate_create_rejected (Store.mk [c2Company] [])
     (Company.mk "c1" "Other" "other" none none) c2Company (by decide) (by decide)⟩

/-- C10: the query text `findAll` sends to the store is a function of the
activation pattern of the filters alone, on both repositories: two filter
sets activating the same filters (same truthiness of each recognized key)
build character-for-character identical query text, whatever the filter
values are — the values influence only the positional parameter list. -/
theorem c10_query_text_activation_hyperproperty
    (f g : CompanyFilters) (fj gj : JobFilters)
    (h1 : jsTruthyStr f.name = jsTruthyStr g.name)
    (h2 : jsTruthyInt f.minEmployees = jsTruthyInt g.minEmployees)
    (h3 : jsTruthyInt f.maxEmployees = jsTruthyInt g.maxEmployees)
    (h4 : jsTruthyStr fj.title = jsTruthyStr gj.title)
    (h5 : jsTruthyInt fj.minSalary = jsTruthyInt gj.minSalary)
    (h6 : jsTruthyOptBool fj.hasEquity = jsTruthyOptBool gj.hasEquity) :
    companyQueryText f = companyQueryText g ∧ jobQueryText fj = jobQueryText gj := by
  constructor
  · unfold companyQueryText companyQueryParts
    rw [h1, h2, h3]
    cases jsTruthyStr g.name <;> cases jsTruthyInt g.minEmployees <;>
      cases jsTruthyInt g.maxEmployees <;> rfl
  · unfold jobQueryText jobQueryParts
    rw [h4, h5, h6]
    cases jsTruthyStr gj.title <;> cases jsTruthyInt gj.minSalary <;>
      cases jsTruthyOptBool gj.hasEquity <;> rfl

/-- C10 witness: two company filter sets and two job filter sets with the
same active filters but different values build identical query text. -/
theorem c10_witness :
    jsTruthyStr (CompanyFilters.mk (some "net") (some 3) none).name =
      jsTruthyStr (CompanyFilters.mk (some "anderson") (some 400) none).name ∧
    jsTruthyInt (CompanyFilters.mk (some "net") (some 3) none).minEmployees =
      jsTruthyInt (CompanyFilters.mk (some "anderson") (some 400) none).minEmployees ∧
    jsTruthyInt (CompanyFilters.mk (some "net") (some 3) none).maxEmployees =
      jsTruthyInt (CompanyFilters.mk (some "anderson") (some 400) none).maxEmployees ∧
    jsTruthyStr (JobFilters.mk (some "2") none (some true)).title =
      jsTruthyStr (JobFilters.mk (some "engineer") none (some true)).title ∧
    jsTruthyInt (JobFilters.mk (some "2") none (some true)).minSalary =
      jsTruthyInt (JobFilters.mk (some "engineer") none (some true)).minSalary ∧
    jsTruthyOptBool (JobFilters.mk (some "2") none (some true)).hasEquity =
      jsTruthyOptBool (JobFilters.mk (some "engineer") none (some true)).hasEquity ∧
    companyQueryText (CompanyFilters.mk (some "net") (some 3) none) =
      companyQueryText (CompanyFilters.mk (some "anderson") (some 400) none) ∧
    jobQueryText (JobFilters.mk (some "2") none (some true)) =
      jobQueryText (JobFilters.mk (some "engineer") none (some true)) := by
  have h := c10_query_text_activation_hyperproperty
    (CompanyFilters.mk (some "net") (some 3) none)
    (CompanyFilters.mk (some "anderson") (some 400) none)
    (JobFilters.mk (some "2") none (some true))
    (JobFilters.mk (some "engineer") none (some true))
    (by decide) (by decide) (by decide) (by decide) (by decide) (by decide)
  exact ⟨by decide, by decide, by decide, by decide, by decide, by decide, h.1, h.2⟩
